import Mathlib

/-!
Shallow embedding of the ths-wallet-adapter client library
(query modules, transport dispatcher, balance fetcher, bech32 validator),
together with proofs of the spec-level properties of these components.

Sources embedded:
- `src/helpers` request dispatcher (`request`, `RequestMethod`)
- `src/query-module/WalletAccountQuery.ts` (the revision with balance
  aggregation: `isValidBech32Address`, `getMyWalletInfo`, `getWalletInfo`,
  `getBalances`, `_getBalances`)
- `src/query-module/UserAccountQuery.ts` (the revision with main-wallet
  balance aggregation: `getMyAccountInfo`)
- `src/config.ts` (`walletServerUrl`)
- the npm `bech32` package (v2) `decode` routine, which the validator calls.

JS strings are Lean `String`s, JS numbers are `Nat`, exceptions are `Except`,
`undefined`-able values are `Option`, and async I/O is modelled by passing the
transport / chain outcome explicitly and threading an explicit call counter.
-/

/-- Node `path.join` restricted to the shapes used in this code base:
concatenates two path segments with exactly one slash between them. -/
def joinPath (a b : String) : String :=
  let aChars := if a.toList.getLast? = some '/' then a.toList.dropLast else a.toList
  let bChars := if b.toList.head? = some '/' then b.toList.tail else b.toList
  String.mk (aChars ++ '/' :: bChars)

/-- JS truthiness of an optional string (`!url`): `undefined` and `""` are falsy. -/
def jsFalsyStr : Option String → Bool
  | none => true
  | some s => s.isEmpty

instance {ε α : Type} [DecidableEq ε] [DecidableEq α] : DecidableEq (Except ε α) := fun x y =>
  match x, y with
  | Except.ok a, Except.ok b =>
    if h : a = b then isTrue (by rw [h]) else isFalse (fun hc => by cases hc; exact h rfl)
  | Except.error a, Except.error b =>
    if h : a = b then isTrue (by rw [h]) else isFalse (fun hc => by cases hc; exact h rfl)
  | Except.ok _, Except.error _ => isFalse (fun hc => by cases hc)
  | Except.error _, Except.ok _ => isFalse (fun hc => by cases hc)

namespace bech32

/-- Character set of the bech32 data part (npm `bech32` v2, `ALPHABET`). -/
def ALPHABET : String := "qpzry9x8gf2tvdw0s3jn54khce6mua7l"

/-- `ALPHABET_MAP`: position of a character in the bech32 alphabet. -/
def alphabetMap (c : Char) : Option Nat :=
  ALPHABET.toList.findIdx? (fun a => a == c)

/-- One step of the BCH checksum (`polymodStep` in the npm `bech32` source).
All intermediate values stay below 2^30, so plain `Nat` arithmetic agrees
with the 32-bit JS arithmetic of the original. -/
def polymodStep (pre : Nat) : Nat :=
  let b := pre >>> 25
  ((pre &&& 0x1ffffff) <<< 5)
    ^^^ (if b &&& 1 == 1 then 0x3b6a57b2 else 0)
    ^^^ (if (b >>> 1) &&& 1 == 1 then 0x26508e6d else 0)
    ^^^ (if (b >>> 2) &&& 1 == 1 then 0x1ea119fa else 0)
    ^^^ (if (b >>> 3) &&& 1 == 1 then 0x3d4233dd else 0)
    ^^^ (if (b >>> 4) &&& 1 == 1 then 0x2a1462b3 else 0)

/-- First loop of `prefixChk`: validates the character range of the
human-readable part and folds the high bits into the checksum.
The error is the string `prefixChk` returns in the JS source. -/
def prefixChkStep1 (hrpStr : String) : List Char → Nat → Except String Nat
  | [], chk => Except.ok chk
  | c :: rest, chk =>
    let n := c.toNat
    if n < 33 || n > 126 then
      Except.error ("Invalid prefix (" ++ hrpStr ++ ")")
    else
      prefixChkStep1 hrpStr rest (polymodStep chk ^^^ (n >>> 5))

/-- Second loop of `prefixChk`: folds the low bits of the human-readable
part into the checksum. -/
def prefixChkStep2 : List Char → Nat → Nat
  | [], chk => chk
  | c :: rest, chk => prefixChkStep2 rest (polymodStep chk ^^^ (c.toNat &&& 0x1f))

/-- `prefixChk` from the npm `bech32` source: checksum contribution of the
human-readable part, or an error string for an out-of-range character. -/
def prefixChk (hrp : List Char) : Except String Nat :=
  match prefixChkStep1 (String.mk hrp) hrp 1 with
  | Except.error e => Except.error e
  | Except.ok chk => Except.ok (prefixChkStep2 hrp (polymodStep chk))

/-- Main loop of `__decode` over the data-part characters: maps each character
through the alphabet, threads the checksum, and collects all but the final six
(checksum) words. `len` is the total number of data-part characters and `i`
the current position. -/
def wordsLoop (len : Nat) : List Char → Nat → Nat → Except String (List Nat × Nat)
  | [], _i, chk => Except.ok ([], chk)
  | c :: rest, i, chk =>
    match alphabetMap c with
    | none => Except.error ("Unknown character " ++ String.mk [c])
    | some v =>
      match wordsLoop len rest (i + 1) (polymodStep chk ^^^ v) with
      | Except.error e => Except.error e
      | Except.ok (ws, chkEnd) =>
        Except.ok ((if i + 6 ≥ len then ws else v :: ws), chkEnd)

/-- Index of the last `'1'` of the string (JS `str.lastIndexOf('1')`),
`none` when absent. -/
def lastIndexOf1Aux : List Char → Nat → Option Nat → Option Nat
  | [], _, acc => acc
  | c :: rest, i, acc => lastIndexOf1Aux rest (i + 1) (if c = '1' then some i else acc)

/-- Result of a successful bech32 decode. The JS object is
`{ prefix, words }`; the human-readable part is called `hrp` here. -/
structure Decoded where
  hrp : String
  words : List Nat
deriving DecidableEq, Repr

/-- The npm `bech32` (v2) `decode` function with the default length limit 90.
`Except.error` models the `Error` that `decode` THROWS on malformed input;
it never returns a falsy value. -/
def decode (str : String) : Except String Decoded :=
  if str.length < 8 then Except.error (str ++ " too short")
  else if str.length > 90 then Except.error "Exceeds length limit"
  else
    let lowered := String.mk (str.toList.map Char.toLower)
    let uppered := String.mk (str.toList.map Char.toUpper)
    if str ≠ lowered ∧ str ≠ uppered then Except.error ("Mixed-case string " ++ str)
    else
      let s := lowered.toList
      match lastIndexOf1Aux s 0 none with
      | none => Except.error ("No separator character for " ++ lowered)
      | some split =>
        if split = 0 then Except.error ("Missing prefix for " ++ lowered)
        else
          let hrp := s.take split
          let wordChars := s.drop (split + 1)
          if wordChars.length < 6 then Except.error "Data too short"
          else
            match prefixChk hrp with
            | Except.error e => Except.error e
            | Except.ok chk =>
              match wordsLoop wordChars.length wordChars 0 chk with
              | Except.error e => Except.error e
              | Except.ok (words, chkFinal) =>
                if chkFinal ≠ 1 then Except.error ("Invalid checksum for " ++ lowered)
                else Except.ok ⟨String.mk hrp, words⟩

end bech32

/-- Denomination/amount pair (`Coin` from `@cosmjs/stargate`). -/
structure Coin where
  denom : String
  amount : String
deriving DecidableEq, Repr

/-- The `ProtocolError` envelope of the external `thasa-wallet-interface`
package: HTTP-like status code, message, optional machine-readable error kind
(the three constructor arguments used throughout the sources). -/
structure ProtocolError where
  message : String
  statusCode : Nat
  errorCode : Option String
deriving DecidableEq, Repr

/-- Error-kind tag `ProtocolError.ERR_BAD_REQUEST` of `thasa-wallet-interface`. -/
def ProtocolError.ERR_BAD_REQUEST : String := "ERR_BAD_REQUEST"

/-- Error-kind tag `ProtocolError.ERR_BAD_RESPONSE` of `thasa-wallet-interface`. -/
def ProtocolError.ERR_BAD_RESPONSE : String := "ERR_BAD_RESPONSE"

/-- The `ProtocolResponse` envelope: status code, status text and the
operation-specific payload `data`. -/
structure ProtocolResponse (α : Type) where
  statusCode : Nat
  statusText : String
  data : α
deriving DecidableEq, Repr

/-- A value thrown inside the dispatcher's `try` block. -/
inductive Thrown where
  /-- An `AxiosError`: HTTP failure (carrying the response status) or a
  network-level failure (no status, `err.response === undefined`). -/
  | axios (status : Option Nat) (msg : String)
  /-- A `ProtocolError` thrown by this layer itself. -/
  | proto (e : ProtocolError)
  /-- Any other raw exception. -/
  | raw (msg : String)
deriving DecidableEq, Repr

/-- Outcome of one axios transport call: either a completed HTTP response
(status, status text, parsed body) or a thrown error. -/
inductive TransportOutcome (α : Type) where
  | success (status : Nat) (statusText : String) (data : α)
  | throws (e : Thrown)
deriving DecidableEq, Repr

/-- Modelled from the spec: `ProtocolResponse.fromAxiosResponse` lives in the
external `thasa-wallet-interface` package, whose sources are not part of this
repository. Spec 4.1: "On successful transport completion, the raw transport
response (status, status text, body) is copied verbatim into a
ProtocolResponse". -/
def ProtocolResponse.fromAxiosResponse {α : Type} (status : Nat) (statusText : String)
    (data : α) : ProtocolResponse α :=
  ⟨status, statusText, data⟩

/-- Modelled from the spec: `ProtocolError.fromAxiosError` lives in the external
`thasa-wallet-interface` package, whose sources are not part of this repository.
Spec 4.1: the dispatcher translates a transport failure into a ProtocolError
"preserving the original status code when available, and a generic/unknown
status (e.g. 500-equivalent) when the failure is a network-level exception with
no status code". -/
def ProtocolError.fromAxiosError (status : Option Nat) (msg : String) : ProtocolError :=
  match status with
  | some s => ⟨msg, s, none⟩
  | none => ⟨msg, 500, none⟩

/-- Modelled from the spec: `ProtocolError.fromError` lives in the external
`thasa-wallet-interface` package, whose sources are not part of this repository.
Spec 7: a non-HTTP exception is an "unknown-failure ... mapped to a generic
failure code"; an exception that already is a `ProtocolError` surfaces as that
same typed error (spec 4.1 lists not-implemented for unsupported methods, and
spec invariant "every failure path produces exactly one ProtocolError"). -/
def ProtocolError.fromError : Thrown → ProtocolError
  | Thrown.proto e => e
  | Thrown.axios _ msg => ⟨msg, 500, none⟩
  | Thrown.raw msg => ⟨msg, 500, none⟩

namespace requestHelpers

/-- The `RequestMethod` enum of `src/helpers` (TS numeric enum). -/
def RequestMethod.GET : Nat := 0

/-- `RequestMethod.POST`. -/
def RequestMethod.POST : Nat := 1

/-- `RequestMethod.PATCH`. -/
def RequestMethod.PATCH : Nat := 2

/-- `RequestMethod.PUT`. -/
def RequestMethod.PUT : Nat := 3

/-- `RequestMethod.DELETE`. -/
def RequestMethod.DELETE : Nat := 4

/-- `RequestMethod.OPTIONS`. -/
def RequestMethod.OPTIONS : Nat := 5

/-- The values of the `RequestMethod` enum. -/
def supportedMethods : List Nat := [0, 1, 2, 3, 4, 5]

/-- One axios invocation: produces either a response or a thrown error,
and counts as one transport call. -/
def axiosCall {α : Type} (t : TransportOutcome α) :
    Except Thrown (ProtocolResponse α) × Nat :=
  match t with
  | TransportOutcome.success s st d =>
    (Except.ok (ProtocolResponse.fromAxiosResponse s st d), 1)
  | TransportOutcome.throws e => (Except.error e, 1)

/-- The transport dispatcher `request` of `src/helpers`
(`async function request(method, url, data?, requestConfig?)`).

The returned `Nat` counts how many axios calls were issued (0 or 1).
`body` and `requestConfig` are carried for shape fidelity; their content
travels over the wire and does not influence the dispatcher's control flow,
which is driven by the transport outcome `t`. -/
def request {α γ : Type} (method : Nat) (url : Option String) (body : Option γ)
    (requestConfig : List (String × String)) (t : TransportOutcome α) :
    Except ProtocolError (ProtocolResponse α) × Nat :=
  if jsFalsyStr url then
    (Except.error ⟨"Invalid request URL", 400, none⟩, 0)
  else
    -- try { switch (method) { ... } return ProtocolResponse.fromAxiosResponse(response); }
    let attempt : Except Thrown (ProtocolResponse α) × Nat :=
      match method with
      | 0 => axiosCall t -- axiosInstance.get(url, requestConfig)
      | 1 => axiosCall t -- axiosInstance.post(url, data, requestConfig)
      | 2 => axiosCall t -- axiosInstance.patch(url, data, requestConfig)
      | 3 => axiosCall t -- axiosInstance.put(url, data, requestConfig)
      | 4 => axiosCall t -- axiosInstance.delete(url, requestConfig)
      | 5 => axiosCall t -- axiosInstance.options(url, requestConfig)
      | m => (Except.error (Thrown.proto
          ⟨"Unsupported request method: " ++ toString m, 501, none⟩), 0)
    -- catch (err) { err instanceof AxiosError ? fromAxiosError : fromError }
    match attempt with
    | (Except.ok resp, n) => (Except.ok resp, n)
    | (Except.error (Thrown.axios st msg), n) =>
      (Except.error (ProtocolError.fromAxiosError st msg), n)
    | (Except.error e, n) => (Except.error (ProtocolError.fromError e), n)

end requestHelpers

/-- `walletServerUrl.topLevelUrl` from `src/config.ts`. -/
def topLevelUrl : String := "/api"

/-- `walletServerUrl.modules.query.moduleUrl` from `src/config.ts`. -/
def queryModuleUrl : String := joinPath topLevelUrl "/query"

/-- A wallet record (`WalletAccountDTO` of `thasa-wallet-interface`): address
plus optional metadata fields, with `balances` attached only by the
aggregation layer. -/
structure WalletAccountDTO where
  address : String
  nickname : Option String := none
  walletAccountId : Option Nat := none
  userAccountId : Option Nat := none
  cryptoHdPath : Option String := none
  balances : Option (List Coin) := none
deriving DecidableEq, Repr

/-- A user-account record (`UserAccountDTO` of `thasa-wallet-interface`). -/
structure UserAccountDTO where
  email : Option String := none
  username : Option String := none
  mainWallet : Option WalletAccountDTO := none
deriving DecidableEq, Repr

/-- Payload of the `/my-wallet` metadata response: the `wallets` field may be
missing (`undefined`) when the wallet server answers with an unexpected shape. -/
structure MyWalletData where
  wallets : Option (List WalletAccountDTO)
deriving DecidableEq, Repr

/-- The blockchain node as seen through `StargateClient`
(`@cosmjs/stargate`, an external collaborator):
`connectOk` is whether `StargateClient.connect` succeeds,
`amountOf addr denom` is the chain's balance ledger,
`queryFails addr denom` says whether the single-denomination query
`client.getBalance(addr, denom)` fails (network/node error), and
`allBalances addr` is the outcome of `client.getAllBalances(addr)`
(the node's native ordering, `none` = the call throws). -/
structure Chain where
  connectOk : Bool
  amountOf : String → String → String
  queryFails : String → String → Bool
  allBalances : String → Option (List Coin)

/-- `StargateClient.getBalance(address, denom)`: returns the balance of the
searched denomination (a `Coin` whose `denom` is the requested one), or
throws (`none`) when the query fails. -/
def Chain.getBalance (c : Chain) (address denom : String) : Option Coin :=
  if c.queryFails address denom then none
  else some ⟨denom, c.amountOf address denom⟩

/-- `Promise.all` over already-settled outcomes, by original position:
`some` of all values when every promise fulfills, `none` when any rejects. -/
def promiseAll {β : Type} : List (Option β) → Option (List β)
  | [] => some []
  | t :: ts => t.bind (fun v => (promiseAll ts).map (fun vs => v :: vs))

/-- Event-loop model of concurrent completion: `sched` is the order in which
the fan-out tasks complete, and each completion writes the result of task `k`
into slot `k` of the result array (exactly how `Promise.all` stores results). -/
def fillSlots {β : Type} (tasks : List (Option β)) :
    List Nat → List (Option β) → List (Option β)
  | [], slots => slots
  | k :: rest, slots => fillSlots tasks rest (slots.set k (tasks.getD k none))

/-- `Promise.all` run under an explicit completion schedule: the tasks complete
in the order given by `sched`, each filling its own slot. -/
def gatherSchedule {β : Type} (tasks : List (Option β)) (sched : List Nat) :
    Option (List β) :=
  promiseAll (fillSlots tasks sched (List.replicate tasks.length none))

/-- An error escaping a query-module operation. The operations rethrow
whatever they catch, so both typed and raw errors surface. -/
inductive Err where
  /-- A `ProtocolError` (the unified error envelope). -/
  | proto (e : ProtocolError)
  /-- The raw `Error` thrown by `bech32.decode`, escaping uncaught. -/
  | bech32Err (msg : String)
  /-- A raw error thrown by the `StargateClient` chain queries. -/
  | chainErr
deriving DecidableEq, Repr

/-- Network activity of one operation: number of wallet-server transport
calls and number of blockchain balance queries issued. -/
structure Calls where
  transport : Nat
  chain : Nat
deriving DecidableEq, Repr

namespace WalletAccountQuery

/-- `WalletAccountQuery.baseUrl`. -/
def baseUrl : String := joinPath queryModuleUrl "/wallet-account"

/-- `WalletAccountQuery.isValidBech32Address` (the validator of
`src/query-module/WalletAccountQuery.ts`):

```ts
const decoded = bech32.decode(address)
if (!decoded) { return false; }
return true;
```

`bech32.decode` throws on malformed input (modelled by `Except.error`, which
this function propagates), and on success returns an object, which is never
falsy — so the `return false` branch is unreachable. -/
def isValidBech32Address (address : String) : Except String Bool :=
  match bech32.decode address with
  | Except.error e => Except.error e
  | Except.ok decoded =>
    -- a successfully returned JS object is never falsy
    if (fun (_ : bech32.Decoded) => false) decoded then Except.ok false
    else Except.ok true

/-- `WalletAccountQuery._getBalances(wallet, ...denoms)`: connects a
`StargateClient` to the node and either fans out one `getBalance` per
denomination through `Promise.all` (when `denoms` is non-empty) or issues a
single `getAllBalances` query. The `Nat` counts issued balance queries. -/
def _getBalances (c : Chain) (wallet : WalletAccountDTO) (denoms : List String) :
    Option (List Coin) × Nat :=
  if c.connectOk = false then (none, 0) -- StargateClient.connect(url) throws
  else if denoms.length > 0 then
    (promiseAll (denoms.map (fun denom => c.getBalance wallet.address denom)),
      denoms.length)
  else
    (c.allBalances wallet.address, 1)

/-- `WalletAccountQuery.getBalances(address, ...denoms)`: wraps the address in
a fresh wallet record and delegates to `_getBalances`. -/
def getBalances (c : Chain) (address : String) (denoms : List String) :
    Option (List Coin) × Nat :=
  _getBalances c { address := address } denoms

/-- The `forEach` merge step of `getMyWalletInfo`:
`balancesArray.forEach((balances, index) => { if (wallets[index]) wallets[index].balances = balances; })`.
`i` is the index of the head of the remaining `balancesArray`. -/
def mergeByIndexAux : List WalletAccountDTO → List (List Coin) → Nat →
    List WalletAccountDTO
  | ws, [], _ => ws
  | ws, b :: rest, i =>
    mergeByIndexAux
      (match ws[i]? with
       | some w => ws.set i { w with balances := some b }
       | none => ws)
      rest (i + 1)

/-- Index-based merge of fetched balances into the wallet list. -/
def mergeByIndex (ws : List WalletAccountDTO) (bs : List (List Coin)) :
    List WalletAccountDTO :=
  mergeByIndexAux ws bs 0

/-- `WalletAccountQuery.getMyWalletInfo` (the revision with balance
aggregation): queries `/my-wallet`, checks the `wallets` field is present,
then — only if `includeBalances` — fans out `_getBalances` per wallet
concurrently, awaits all of them, and merges the results back by index. -/
def getMyWalletInfo (c : Chain) (t : TransportOutcome MyWalletData)
    (includeAddress includeNickname includeCryptoHdPath includeBalances : Bool)
    (isMainWallet : Bool) (walletOrder : List Nat) :
    Except Err (ProtocolResponse MyWalletData) × Calls :=
  let url := joinPath baseUrl "/my-wallet"
  let requestConfig := [
    ("includeAddress", toString includeAddress),
    ("includeNickname", toString includeNickname),
    ("includeCryptoHdPath", toString includeCryptoHdPath),
    ("isMainWallet", toString isMainWallet),
    ("walletOrder", toString walletOrder)]
  match requestHelpers.request requestHelpers.RequestMethod.GET (some url)
      (none : Option Unit) requestConfig t with
  | (Except.error e, n) => (Except.error (Err.proto e), ⟨n, 0⟩)
  | (Except.ok protoResponse, n) =>
    match protoResponse.data.wallets with
    | none =>
      (Except.error (Err.proto ⟨"Bad response data from wallet server", 500,
        some ProtocolError.ERR_BAD_RESPONSE⟩), ⟨n, 0⟩)
    | some wallets =>
      if includeBalances then
        let results := wallets.map (fun wallet => _getBalances c wallet [])
        let chainCalls := (results.map Prod.snd).sum
        match promiseAll (results.map Prod.fst) with
        | none => (Except.error Err.chainErr, ⟨n, chainCalls⟩)
        | some balancesArray =>
          (Except.ok { protoResponse with
            data := ⟨some (mergeByIndex wallets balancesArray)⟩ }, ⟨n, chainCalls⟩)
      else (Except.ok protoResponse, ⟨n, 0⟩)

/-- `WalletAccountQuery.getWalletInfo(address, includeBalances)` (the revision
with balance aggregation): validates the address, queries `/find`, checks the
payload is present, and optionally attaches the wallet's balances. -/
def getWalletInfo (c : Chain) (t : TransportOutcome (Option WalletAccountDTO))
    (address : String) (includeBalances : Bool) :
    Except Err (ProtocolResponse (Option WalletAccountDTO)) × Calls :=
  match isValidBech32Address address with
  | Except.error e => (Except.error (Err.bech32Err e), ⟨0, 0⟩)
  | Except.ok valid =>
    if !valid then
      (Except.error (Err.proto ⟨"Invalid Bech32 address", 400,
        some ProtocolError.ERR_BAD_REQUEST⟩), ⟨0, 0⟩)
    else
      let url := joinPath baseUrl "/find"
      let requestConfig := [("address", address)]
      match requestHelpers.request requestHelpers.RequestMethod.GET (some url)
          (none : Option Unit) requestConfig t with
      | (Except.error e, n) => (Except.error (Err.proto e), ⟨n, 0⟩)
      | (Except.ok protoResponse, n) =>
        match protoResponse.data with
        | none =>
          (Except.error (Err.proto ⟨"Bad response data from wallet server", 500,
            some ProtocolError.ERR_BAD_RESPONSE⟩), ⟨n, 0⟩)
        | some wallet =>
          if includeBalances then
            match _getBalances c wallet [] with
            | (none, q) => (Except.error Err.chainErr, ⟨n, q⟩)
            | (some balances, q) =>
              (Except.ok { protoResponse with
                data := some { wallet with balances := some balances } }, ⟨n, q⟩)
          else (Except.ok protoResponse, ⟨n, 0⟩)

end WalletAccountQuery

namespace UserAccountQuery

/-- `UserAccountQuery.baseUrl`. -/
def baseUrl : String := joinPath queryModuleUrl "/user-account"

/-- `UserAccountQuery.getMyAccountInfo` (the revision with main-wallet balance
aggregation): queries `/my-account`, checks the account payload is present,
and — when a main wallet is present in the payload AND `includeMainWallet` is
set — fetches and attaches the main wallet's balances. -/
def getMyAccountInfo (c : Chain) (t : TransportOutcome (Option UserAccountDTO))
    (includeEmail includeUsername includeMainWallet : Bool) :
    Except Err (ProtocolResponse (Option UserAccountDTO)) × Calls :=
  let url := joinPath baseUrl "/my-account"
  let requestConfig := [
    ("includeEmail", toString includeEmail),
    ("includeUsername", toString includeUsername),
    ("includeMainWallet", toString includeMainWallet)]
  match requestHelpers.request requestHelpers.RequestMethod.GET (some url)
      (none : Option Unit) requestConfig t with
  | (Except.error e, n) => (Except.error (Err.proto e), ⟨n, 0⟩)
  | (Except.ok protoResponse, n) =>
    match protoResponse.data with
    | none =>
      (Except.error (Err.proto
        ⟨"Bad response from wallet web server: UserAccountDTO object not available",
          500, some ProtocolError.ERR_BAD_RESPONSE⟩), ⟨n, 0⟩)
    | some userAccount =>
      -- if (mainWallet && includeMainWallet) { ... }
      match userAccount.mainWallet with
      | some mainWallet =>
        if includeMainWallet then
          match WalletAccountQuery.getBalances c mainWallet.address [] with
          | (none, q) => (Except.error Err.chainErr, ⟨n, q⟩)
          | (some balances, q) =>
            (Except.ok { protoResponse with
              data := some { userAccount with
                mainWallet := some { mainWallet with balances := some balances } } },
              ⟨n, q⟩)
        else (Except.ok protoResponse, ⟨n, 0⟩)
      | none => (Except.ok protoResponse, ⟨n, 0⟩)

end UserAccountQuery

/-- Sample chain state used by the concrete witnesses: every query succeeds. -/
def chainEx : Chain where
  connectOk := true
  amountOf := fun _ d => if d = "uatom" then "5" else "7"
  queryFails := fun _ _ => false
  allBalances := fun a =>
    if a = "thasaAAA" then some [⟨"uthas", "11"⟩] else some [⟨"uthas", "22"⟩]

/-- Sample chain state where querying the denomination "ubad" fails. -/
def chainBad : Chain where
  connectOk := true
  amountOf := fun _ _ => "9"
  queryFails := fun _ d => d == "ubad"
  allBalances := fun _ => some []

theorem promiseAll_map_eq {β γ : Type} (l : List γ) (f : γ → Option β) (g : γ → β)
    (h : ∀ x ∈ l, f x = some (g x)) : promiseAll (l.map f) = some (l.map g) := by
  induction l with
  | nil => rfl
  | cons x xs ih =>
    simp only [List.map_cons, promiseAll]
    rw [h x (List.mem_cons_self x xs), ih (fun y hy => h y (List.mem_cons_of_mem x hy))]
    rfl

theorem promiseAll_map_none {β γ : Type} (l : List γ) (f : γ → Option β) (x : γ)
    (hx : x ∈ l) (hfx : f x = none) : promiseAll (l.map f) = none := by
  induction l with
  | nil => cases hx
  | cons y ys ih =>
    simp only [List.map_cons, promiseAll]
    rcases List.mem_cons.mp hx with h | h
    · subst h; rw [hfx]; rfl
    · rw [ih h]; cases f y <;> rfl

theorem fillSlots_length {β : Type} (tasks : List (Option β)) (sched : List Nat) :
    ∀ slots : List (Option β), (fillSlots tasks sched slots).length = slots.length := by
  induction sched with
  | nil => intro slots; rfl
  | cons k rest ih =>
    intro slots
    simp only [fillSlots]
    rw [ih, List.length_set]

theorem fillSlots_getElem? {β : Type} (tasks : List (Option β)) (sched : List Nat) :
    ∀ slots : List (Option β), slots.length = tasks.length →
      (∀ k ∈ sched, k < tasks.length) → ∀ j : Nat,
      (fillSlots tasks sched slots)[j]? =
        if j ∈ sched then tasks[j]? else slots[j]? := by
  induction sched with
  | nil =>
    intro slots _ _ j
    simp [fillSlots]
  | cons k rest ih =>
    intro slots hlen hk j
    simp only [fillSlots]
    rw [ih (slots.set k (tasks.getD k none)) (by rw [List.length_set]; exact hlen)
      (fun x hx => hk x (List.mem_cons_of_mem k hx)) j]
    by_cases hjr : j ∈ rest
    · simp [hjr, List.mem_cons]
    · by_cases hjk : j = k
      · subst hjk
        have hjlt : j < tasks.length := hk j (List.mem_cons_self j rest)
        have hjslots : j < slots.length := by rw [hlen]; exact hjlt
        simp only [hjr, if_false, List.mem_cons, or_false, if_pos (Or.inl rfl)]
        rw [List.getElem?_set_eq_of_lt _ hjslots,
          List.getD_eq_getElem tasks none hjlt, List.getElem?_eq_getElem hjlt]
        simp
      · have hnot : ¬ j ∈ k :: rest := by
          rw [List.mem_cons]; rintro (h | h) <;> [exact hjk h; exact hjr h]
        simp only [hjr, if_false, hnot]
        exact List.getElem?_set_ne (fun h => hjk h.symm)

theorem fillSlots_perm_eq {β : Type} (tasks : List (Option β)) (sched : List Nat)
    (hperm : sched.Perm (List.range tasks.length)) :
    fillSlots tasks sched (List.replicate tasks.length none) = tasks := by
  have hmem : ∀ k, k ∈ sched ↔ k < tasks.length := by
    intro k
    rw [hperm.mem_iff, List.mem_range]
  apply List.ext_getElem?
  intro j
  rw [fillSlots_getElem? tasks sched (List.replicate tasks.length none)
    (List.length_replicate _ _) (fun k hk => (hmem k).mp hk) j]
  by_cases hj : j < tasks.length
  · rw [if_pos ((hmem j).mpr hj)]
  · have hle : tasks.length ≤ j := Nat.le_of_not_lt hj
    rw [if_neg (fun h => hj ((hmem j).mp h))]
    rw [List.getElem?_eq_none hle, List.getElem?_eq_none (by simpa using hle)]

theorem gatherSchedule_perm {β : Type} (tasks : List (Option β)) (sched : List Nat)
    (hperm : sched.Perm (List.range tasks.length)) :
    gatherSchedule tasks sched = promiseAll tasks := by
  rw [gatherSchedule, fillSlots_perm_eq tasks sched hperm]

namespace WalletAccountQuery

theorem mergeByIndexAux_cons (bs : List (List Coin)) :
    ∀ (ws : List WalletAccountDTO) (w : WalletAccountDTO) (i : Nat),
      mergeByIndexAux (w :: ws) bs (i + 1) = w :: mergeByIndexAux ws bs i := by
  induction bs with
  | nil => intro ws w i; rfl
  | cons b rest ih =>
    intro ws w i
    simp only [mergeByIndexAux, List.getElem?_cons_succ]
    cases hwi : ws[i]? with
    | none => dsimp only; rw [ih]
    | some x =>
      dsimp only
      rw [show (w :: ws).set (i + 1) { x with balances := some b } =
        w :: ws.set i { x with balances := some b } from rfl, ih]

theorem mergeByIndex_eq_map (ws : List WalletAccountDTO) (g : WalletAccountDTO → List Coin) :
    mergeByIndex ws (ws.map g) = ws.map (fun w => { w with balances := some (g w) }) := by
  induction ws with
  | nil => rfl
  | cons w rest ih =>
    simp only [List.map_cons, mergeByIndex, mergeByIndexAux, List.getElem?_cons_zero,
      List.set_cons_zero]
    rw [mergeByIndexAux_cons]
    rw [show mergeByIndexAux rest (List.map g rest) 0 = mergeByIndex rest (List.map g rest)
      from rfl, ih]

end WalletAccountQuery

namespace requestHelpers

theorem request_get_success {α γ : Type} (u : String) (hu : u.isEmpty = false)
    (body : Option γ) (cfg : List (String × String)) (s : Nat) (st : String) (d : α) :
    request RequestMethod.GET (some u) body cfg (TransportOutcome.success s st d) =
      (Except.ok ⟨s, st, d⟩, 1) := by
  simp [request, jsFalsyStr, hu, RequestMethod.GET, axiosCall,
    ProtocolResponse.fromAxiosResponse]

end requestHelpers

namespace WalletAccountQuery

theorem urlMyWallet_ok : (joinPath baseUrl "/my-wallet").isEmpty = false := by decide

theorem urlFind_ok : (joinPath baseUrl "/find").isEmpty = false := by decide

theorem getMyWalletInfo_ok (c : Chain) (s : Nat) (st : String)
    (wallets : List WalletAccountDTO) (iA iN iH iM : Bool) (wo : List Nat)
    (bal : WalletAccountDTO → List Coin)
    (hconn : c.connectOk = true)
    (hbal : ∀ w ∈ wallets, c.allBalances w.address = some (bal w)) :
    getMyWalletInfo c (TransportOutcome.success s st ⟨some wallets⟩) iA iN iH true iM wo =
      (Except.ok ⟨s, st,
        ⟨some (wallets.map (fun w => { w with balances := some (bal w) }))⟩⟩,
        ⟨1, wallets.length⟩) := by
  rw [getMyWalletInfo, requestHelpers.request_get_success _ urlMyWallet_ok]
  dsimp only
  rw [if_pos rfl]
  have htask : ∀ w ∈ wallets, (_getBalances c w []).1 = some (bal w) := by
    intro w hw
    simp [_getBalances, hconn, hbal w hw]
  have hcnt : ∀ w ∈ wallets, (_getBalances c w []).2 = 1 := by
    intro w hw
    simp [_getBalances, hconn]
  rw [List.map_map, List.map_map]
  rw [promiseAll_map_eq wallets (Prod.fst ∘ fun wallet => _getBalances c wallet [])
    (fun w => bal w) (fun w hw => htask w hw)]
  dsimp only
  rw [mergeByIndex_eq_map]
  have h1 : List.map (Prod.snd ∘ fun wallet => _getBalances c wallet []) wallets =
      List.map (fun _ => 1) wallets := by
    apply List.map_congr_left
    intro w hw
    exact hcnt w hw
  rw [h1, List.map_const']
  simp

end WalletAccountQuery

namespace WalletAccountQuery

theorem getWalletInfo_ok (c : Chain) (s : Nat) (st : String) (w : WalletAccountDTO)
    (address : String) (bal : List Coin)
    (hvalid : isValidBech32Address address = Except.ok true)
    (hconn : c.connectOk = true)
    (hbal : c.allBalances w.address = some bal) :
    getWalletInfo c (TransportOutcome.success s st (some w)) address true =
      (Except.ok ⟨s, st, some { w with balances := some bal }⟩, ⟨1, 1⟩) := by
  simp [getWalletInfo, hvalid, requestHelpers.request_get_success _ urlFind_ok,
    _getBalances, hconn, hbal]

end WalletAccountQuery

namespace UserAccountQuery

theorem urlMyAccount_ok : (joinPath baseUrl "/my-account").isEmpty = false := by decide

end UserAccountQuery

/-- C1: for every address and non-empty denomination list of length N,
`getBalances(address, ...denoms)` issues one balance query per denomination
(the query count equals N) and returns a list of exactly N entries whose i-th
entry is the balance the chain returned for `denoms[i]` (in particular
`result[i].denom = denoms[i]`), and the assembled result is the same under
every completion schedule of the N concurrent queries. -/
theorem getBalances_positional (c : Chain) (address : String) (denoms : List String)
    (hne : denoms ≠ []) (hconn : c.connectOk = true)
    (hok : ∀ d ∈ denoms, c.queryFails address d = false) :
    ∃ res : List Coin,
      WalletAccountQuery.getBalances c address denoms = (some res, denoms.length) ∧
      res.length = denoms.length ∧
      (∀ i (hi : i < denoms.length),
        res[i]? = some ⟨denoms[i], c.amountOf address denoms[i]⟩) ∧
      (∀ sched : List Nat, sched.Perm (List.range denoms.length) →
        gatherSchedule (denoms.map (fun d => c.getBalance address d)) sched = some res) := by
  have hgb : ∀ d ∈ denoms, c.getBalance address d =
      some ⟨d, c.amountOf address d⟩ := by
    intro d hd
    simp [Chain.getBalance, hok d hd]
  have hlen : 0 < denoms.length := List.length_pos.mpr hne
  refine ⟨denoms.map (fun d => ⟨d, c.amountOf address d⟩), ?_, ?_, ?_, ?_⟩
  · simp only [WalletAccountQuery.getBalances, WalletAccountQuery._getBalances, hconn]
    rw [if_neg (by simp), if_pos hlen,
      promiseAll_map_eq denoms (fun d => c.getBalance address d)
        (fun d => ⟨d, c.amountOf address d⟩) hgb]
  · simp
  · intro i hi
    simp [List.getElem?_eq_getElem hi]
  · intro sched hperm
    rw [gatherSchedule_perm _ sched (by simpa using hperm),
      promiseAll_map_eq denoms (fun d => c.getBalance address d)
        (fun d => ⟨d, c.amountOf address d⟩) hgb]

/-- Witness for C1 at a concrete chain and denomination list. -/
theorem getBalances_positional_witness :
    ∃ res : List Coin,
      WalletAccountQuery.getBalances chainEx "thasaAAA" ["uatom", "uluna"] =
        (some res, (["uatom", "uluna"] : List String).length) ∧
      res.length = (["uatom", "uluna"] : List String).length ∧
      (∀ i (hi : i < (["uatom", "uluna"] : List String).length),
        res[i]? = some ⟨(["uatom", "uluna"] : List String)[i],
          chainEx.amountOf "thasaAAA" (["uatom", "uluna"] : List String)[i]⟩) ∧
      (∀ sched : List Nat,
        sched.Perm (List.range (["uatom", "uluna"] : List String).length) →
        gatherSchedule ((["uatom", "uluna"] : List String).map
          (fun d => chainEx.getBalance "thasaAAA" d)) sched = some res) :=
  getBalances_positional chainEx "thasaAAA" ["uatom", "uluna"] (by decide) rfl
    (by intro d hd; rfl)

/-- C2: if any single one of the per-denomination queries of a `getBalances`
fan-out fails, the whole call fails and yields no list at all (no partial
result of the successful queries). -/
theorem getBalances_failfast (c : Chain) (address : String) (denoms : List String)
    (d : String) (hd : d ∈ denoms) (hf : c.queryFails address d = true) :
    (WalletAccountQuery.getBalances c address denoms).1 = none := by
  by_cases hc : c.connectOk = false
  · simp [WalletAccountQuery.getBalances, WalletAccountQuery._getBalances, hc]
  · have hlen : 0 < denoms.length := List.length_pos.mpr (List.ne_nil_of_mem hd)
    simp only [WalletAccountQuery.getBalances, WalletAccountQuery._getBalances,
      if_neg hc, if_pos hlen]
    rw [promiseAll_map_none denoms _ d hd (by simp [Chain.getBalance, hf])]

/-- Witness for C2: one failing denomination among two poisons the whole call. -/
theorem getBalances_failfast_witness :
    (WalletAccountQuery.getBalances chainBad "thasaAAA" ["uatom", "ubad"]).1 = none :=
  getBalances_failfast chainBad "thasaAAA" ["uatom", "ubad"] "ubad" (by decide) rfl

/-- C3: `getMyWalletInfo` fails with the bad-response `ProtocolError` (status
500, kind `ERR_BAD_RESPONSE`) whenever the `wallets` field is missing from the
transport payload; otherwise, when balances are requested, it issues one
balance fetch per wallet (chain call count = number of wallets), awaits them
all, and writes the balances fetched for `wallets[i]` into `wallets[i]` itself
— the merged list is positionally `wallets.map (· with balances)`, with no
address-based matching involved. -/
theorem getMyWalletInfo_merges_by_index (c : Chain) (s : Nat) (st : String)
    (iA iN iH iM : Bool) (wo : List Nat) :
    (∀ iB : Bool,
      WalletAccountQuery.getMyWalletInfo c (TransportOutcome.success s st ⟨none⟩)
          iA iN iH iB iM wo =
        (Except.error (Err.proto ⟨"Bad response data from wallet server", 500,
          some ProtocolError.ERR_BAD_RESPONSE⟩), ⟨1, 0⟩)) ∧
    (∀ (wallets : List WalletAccountDTO) (bal : WalletAccountDTO → List Coin),
      c.connectOk = true →
      (∀ w ∈ wallets, c.allBalances w.address = some (bal w)) →
      WalletAccountQuery.getMyWalletInfo c (TransportOutcome.success s st ⟨some wallets⟩)
          iA iN iH true iM wo =
        (Except.ok ⟨s, st,
          ⟨some (wallets.map (fun w => { w with balances := some (bal w) }))⟩⟩,
          ⟨1, wallets.length⟩)) := by
  constructor
  · intro iB
    rw [WalletAccountQuery.getMyWalletInfo,
      requestHelpers.request_get_success _ WalletAccountQuery.urlMyWallet_ok]
  · intro wallets bal hconn hbal
    exact WalletAccountQuery.getMyWalletInfo_ok c s st wallets iA iN iH iM wo bal hconn hbal

/-- Witness for C3 at a concrete chain, two wallets and a successful response. -/
theorem getMyWalletInfo_merges_by_index_witness :
    WalletAccountQuery.getMyWalletInfo chainEx (TransportOutcome.success 200 "OK"
        ⟨some [{ address := "thasaAAA" }, { address := "thasaBBB", nickname := some "Ant" }]⟩)
      true true true true false [] =
      (Except.ok ⟨200, "OK", ⟨some [
        { address := "thasaAAA", balances := some [⟨"uthas", "11"⟩] },
        { address := "thasaBBB", nickname := some "Ant",
          balances := some [⟨"uthas", "22"⟩] }]⟩⟩, ⟨1, 2⟩) := by
  have h := (getMyWalletInfo_merges_by_index chainEx 200 "OK" true true true false []).2
    [{ address := "thasaAAA" }, { address := "thasaBBB", nickname := some "Ant" }]
    (fun w => if w.address = "thasaAAA" then [⟨"uthas", "11"⟩] else [⟨"uthas", "22"⟩])
    rfl (by decide)
  exact h.trans (by decide)

/-- C4 (code bug): `isValidBech32Address` THROWS on a malformed address instead
of returning `false`: at the invalid input "not-a-valid-address" it propagates
the `Error` thrown by `bech32.decode` ("No separator character ..."), it does
return `true` on a structurally valid bech32 address ("a12uel5l"), and it can
never return `false` at all — `bech32.decode` either throws or returns a
(never-falsy) object, so the `return false` branch is dead code. -/
theorem isValidBech32Address_throws_instead_of_false :
    WalletAccountQuery.isValidBech32Address "not-a-valid-address" =
      Except.error "No separator character for not-a-valid-address" ∧
    WalletAccountQuery.isValidBech32Address "a12uel5l" = Except.ok true ∧
    (∀ (s : String) (b : Bool),
      WalletAccountQuery.isValidBech32Address s = Except.ok b → b = true) := by
  refine ⟨by decide, by decide, ?_⟩
  intro s b h
  unfold WalletAccountQuery.isValidBech32Address at h
  cases hdec : bech32.decode s with
  | error e => rw [hdec] at h; cases h
  | ok d =>
    rw [hdec] at h
    simp at h
    exact h

/-- Witness for C4: the never-returns-false conjunct applied at a concrete
valid address. -/
theorem isValidBech32Address_throws_witness :
    WalletAccountQuery.isValidBech32Address "a12uel5l" = Except.ok true ∧ true = true :=
  ⟨isValidBech32Address_throws_instead_of_false.2.1,
   isValidBech32Address_throws_instead_of_false.2.2 "a12uel5l" true (by decide)⟩

/-- C5 (code bug): for the structurally invalid address "not-a-valid-address",
`getWalletInfo` does fail immediately with zero transport calls and zero chain
calls — but the error that escapes is the raw `bech32.decode` exception, NOT
the bad-request `ProtocolError` with status 400 (that `throw` is unreachable,
because the validator itself throws first). -/
theorem getWalletInfo_invalid_address_raw_throw (c : Chain)
    (t : TransportOutcome (Option WalletAccountDTO)) (includeBalances : Bool) :
    WalletAccountQuery.getWalletInfo c t "not-a-valid-address" includeBalances =
      (Except.error (Err.bech32Err "No separator character for not-a-valid-address"),
        ⟨0, 0⟩) := by
  have hdec : WalletAccountQuery.isValidBech32Address "not-a-valid-address" =
      Except.error "No separator character for not-a-valid-address" := by decide
  rw [WalletAccountQuery.getWalletInfo, hdec]

/-- C6: for every supported method and non-empty path, the dispatcher's result
is always either a `ProtocolResponse` or a single `ProtocolError` (no raw
transport exception escapes `request`); an `AxiosError` carrying an HTTP
status is translated into a `ProtocolError` preserving that exact status code,
and an axios network-level failure without a status, or any other raw
exception, is translated into a `ProtocolError` with the generic 500 status. -/
theorem request_failure_contract {α γ : Type} (method : Nat) (url : Option String)
    (body : Option γ) (cfg : List (String × String))
    (hurl : jsFalsyStr url = false) (hm : method ∈ requestHelpers.supportedMethods) :
    (∀ t : TransportOutcome α,
      (∃ r, (requestHelpers.request method url body cfg t).1 = Except.ok r) ∨
      (∃ e : ProtocolError, (requestHelpers.request method url body cfg t).1 =
        Except.error e)) ∧
    (∀ (s : Nat) (msg : String),
      (requestHelpers.request method url body cfg
        (TransportOutcome.throws (Thrown.axios (some s) msg) (α := α))).1 =
        Except.error ⟨msg, s, none⟩) ∧
    (∀ msg : String,
      (requestHelpers.request method url body cfg
        (TransportOutcome.throws (Thrown.axios none msg) (α := α))).1 =
        Except.error ⟨msg, 500, none⟩) ∧
    (∀ msg : String,
      (requestHelpers.request method url body cfg
        (TransportOutcome.throws (Thrown.raw msg) (α := α))).1 =
        Except.error ⟨msg, 500, none⟩) := by
  refine ⟨?_, ?_, ?_, ?_⟩
  · intro t
    cases hres : (requestHelpers.request method url body cfg t).1 with
    | ok r => exact Or.inl ⟨r, rfl⟩
    | error e => exact Or.inr ⟨e, rfl⟩
  · intro s msg
    fin_cases hm <;>
      simp [requestHelpers.request, hurl, requestHelpers.axiosCall,
        ProtocolError.fromAxiosError]
  · intro msg
    fin_cases hm <;>
      simp [requestHelpers.request, hurl, requestHelpers.axiosCall,
        ProtocolError.fromAxiosError]
  · intro msg
    fin_cases hm <;>
      simp [requestHelpers.request, hurl, requestHelpers.axiosCall,
        ProtocolError.fromError]

/-- Witness for C6: a 404 HTTP failure keeps its status, a raw network error
maps to 500. -/
theorem request_failure_contract_witness :
    (requestHelpers.request 0 (some "/x") (none : Option Unit) []
      (TransportOutcome.throws (Thrown.axios (some 404) "Request failed") (α := Nat))).1 =
      Except.error ⟨"Request failed", 404, none⟩ ∧
    (requestHelpers.request 0 (some "/x") (none : Option Unit) []
      (TransportOutcome.throws (Thrown.raw "socket hang up") (α := Nat))).1 =
      Except.error ⟨"socket hang up", 500, none⟩ :=
  ⟨(request_failure_contract 0 (some "/x") (none : Option Unit) [] rfl
      (by decide)).2.1 404 "Request failed",
   (request_failure_contract 0 (some "/x") (none : Option Unit) [] rfl
      (by decide)).2.2.2 "socket hang up"⟩

/-- C7: with an `undefined` or empty path, `request` fails with the
bad-request `ProtocolError` (status 400) and performs zero transport calls,
whatever the method, body or would-be transport outcome. -/
theorem request_empty_path {α γ : Type} (method : Nat) (body : Option γ)
    (cfg : List (String × String)) (t : TransportOutcome α) :
    requestHelpers.request method none body cfg t =
      (Except.error ⟨"Invalid request URL", 400, none⟩, 0) ∧
    requestHelpers.request method (some "") body cfg t =
      (Except.error ⟨"Invalid request URL", 400, none⟩, 0) := by
  constructor <;> rfl

/-- C8: with a non-empty path and a method value outside the enumerated
`RequestMethod` set {GET, POST, PATCH, PUT, DELETE, OPTIONS}, `request` fails
with the not-implemented `ProtocolError` (status 501) and performs zero
transport calls. -/
theorem request_unsupported_method {α γ : Type} (method : Nat) (url : Option String)
    (body : Option γ) (cfg : List (String × String)) (t : TransportOutcome α)
    (hurl : jsFalsyStr url = false) (hm : ¬ method ∈ requestHelpers.supportedMethods) :
    requestHelpers.request method url body cfg t =
      (Except.error ⟨"Unsupported request method: " ++ toString method, 501, none⟩, 0) := by
  obtain ⟨k, rfl⟩ : ∃ k, method = k + 6 := by
    rcases method with _|_|_|_|_|_|m
    · exact absurd (by decide) hm
    · exact absurd (by decide) hm
    · exact absurd (by decide) hm
    · exact absurd (by decide) hm
    · exact absurd (by decide) hm
    · exact absurd (by decide) hm
    · exact ⟨m, rfl⟩
  simp [requestHelpers.request, hurl, ProtocolError.fromError]

/-- Witness for C8 at the unsupported method value 7. -/
theorem request_unsupported_method_witness :
    requestHelpers.request 7 (some "/x") (none : Option Unit) []
      (TransportOutcome.success 200 "OK" (0 : Nat)) =
      (Except.error ⟨"Unsupported request method: 7", 501, none⟩, 0) := by
  have h := request_unsupported_method 7 (some "/x") (none : Option Unit) []
    (TransportOutcome.success 200 "OK" (0 : Nat)) rfl (by decide)
  exact h.trans (by decide)

/-- C9 (frame): when `getMyWalletInfo` or `getWalletInfo` attaches balances
after a successful transport call, the only field written is `balances` of the
affected wallet record(s): the response's status code and status text are the
transport's, and every other field of every wallet record (address, nickname,
identifiers, HD path) is exactly what the transport returned. -/
theorem aggregation_balances_frame (c : Chain) (s : Nat) (st : String)
    (iA iN iH iM : Bool) (wo : List Nat) :
    (∀ (wallets : List WalletAccountDTO) (bal : WalletAccountDTO → List Coin),
      c.connectOk = true →
      (∀ w ∈ wallets, c.allBalances w.address = some (bal w)) →
      ∃ wallets' : List WalletAccountDTO,
        WalletAccountQuery.getMyWalletInfo c
            (TransportOutcome.success s st ⟨some wallets⟩) iA iN iH true iM wo =
          (Except.ok ⟨s, st, ⟨some wallets'⟩⟩, ⟨1, wallets.length⟩) ∧
        wallets'.length = wallets.length ∧
        (∀ i (hi : i < wallets.length),
          ∃ w' : WalletAccountDTO, wallets'[i]? = some w' ∧
            w'.address = wallets[i].address ∧
            w'.nickname = wallets[i].nickname ∧
            w'.walletAccountId = wallets[i].walletAccountId ∧
            w'.userAccountId = wallets[i].userAccountId ∧
            w'.cryptoHdPath = wallets[i].cryptoHdPath ∧
            w'.balances = some (bal wallets[i]))) ∧
    (∀ (w : WalletAccountDTO) (address : String) (bal : List Coin),
      WalletAccountQuery.isValidBech32Address address = Except.ok true →
      c.connectOk = true →
      c.allBalances w.address = some bal →
      WalletAccountQuery.getWalletInfo c (TransportOutcome.success s st (some w))
          address true =
        (Except.ok ⟨s, st, some { w with balances := some bal }⟩, ⟨1, 1⟩)) := by
  constructor
  · intro wallets bal hconn hbal
    refine ⟨wallets.map (fun w => { w with balances := some (bal w) }),
      WalletAccountQuery.getMyWalletInfo_ok c s st wallets iA iN iH iM wo bal hconn hbal,
      by simp, ?_⟩
    intro i hi
    refine ⟨{ (wallets[i]) with balances := some (bal (wallets[i])) }, ?_, rfl, rfl, rfl, rfl, rfl, rfl⟩
    simp [List.getElem?_eq_getElem hi]
  · intro w address bal hvalid hconn hbal
    exact WalletAccountQuery.getWalletInfo_ok c s st w address bal hvalid hconn hbal

/-- Witness for C9: `getWalletInfo` for a valid address leaves every
transport-returned field intact and only fills `balances`. -/
theorem aggregation_balances_frame_witness :
    WalletAccountQuery.getWalletInfo chainEx
      (TransportOutcome.success 200 "OK"
        (some
          { address := "thasaAAA", nickname := some "Ant", walletAccountId := some 19,
            userAccountId := some 1 }))
      "a12uel5l" true =
      (Except.ok
        ⟨200, "OK",
          some
            { address := "thasaAAA", nickname := some "Ant", walletAccountId := some 19,
              userAccountId := some 1, balances := some [⟨"uthas", "11"⟩] }⟩,
        ⟨1, 1⟩) :=
  (aggregation_balances_frame chainEx 200 "OK" true true true false []).2
    { address := "thasaAAA", nickname := some "Ant", walletAccountId := some 19,
      userAccountId := some 1 }
    "a12uel5l" [⟨"uthas", "11"⟩] (by decide) rfl (by decide)

/-- C10: `getMyAccountInfo` fetches and attaches main-wallet balances only
when BOTH `includeMainWallet` is set AND the returned account actually carries
a `mainWallet`; when the account payload is present but has no `mainWallet`,
or when `includeMainWallet` is false, the call succeeds with the transport
response unchanged, zero balance queries and no error. -/
theorem getMyAccountInfo_mainWallet_guard (c : Chain) (s : Nat) (st : String)
    (iE iU : Bool) :
    (∀ ua : UserAccountDTO, ua.mainWallet = none → ∀ iM : Bool,
      UserAccountQuery.getMyAccountInfo c (TransportOutcome.success s st (some ua))
          iE iU iM =
        (Except.ok ⟨s, st, some ua⟩, ⟨1, 0⟩)) ∧
    (∀ ua : UserAccountDTO,
      UserAccountQuery.getMyAccountInfo c (TransportOutcome.success s st (some ua))
          iE iU false =
        (Except.ok ⟨s, st, some ua⟩, ⟨1, 0⟩)) := by
  constructor
  · intro ua hmw iM
    rw [UserAccountQuery.getMyAccountInfo,
      requestHelpers.request_get_success _ UserAccountQuery.urlMyAccount_ok]
    dsimp only
    rw [hmw]
  · intro ua
    rw [UserAccountQuery.getMyAccountInfo,
      requestHelpers.request_get_success _ UserAccountQuery.urlMyAccount_ok]
    dsimp only
    cases ua.mainWallet <;> rfl

/-- Witness for C10: an account without a main wallet is returned unchanged,
with no balance query issued, even though `includeMainWallet` is true. -/
theorem getMyAccountInfo_mainWallet_guard_witness :
    UserAccountQuery.getMyAccountInfo chainEx (TransportOutcome.success 200 "OK"
        (some { email := some "user@example.com", username := some "user" }))
      true true true =
      (Except.ok ⟨200, "OK",
        some { email := some "user@example.com", username := some "user" }⟩, ⟨1, 0⟩) :=
  (getMyAccountInfo_mainWallet_guard chainEx 200 "OK" true true).1
    { email := some "user@example.com", username := some "user" } rfl true
